import Mathlib

/-!
# Verification of the time-metrics calculator

Shallow embedding of `functions/timeCalculator.js` (module `timeCalculator`)
of the Mini-HCM-Time-Tracking repository.

Modelling conventions:

* Instants are modelled at minute granularity, as an integer count of minutes
  on the local clock of the schedule's timezone.  The source converts both
  punches to that zone (`moment(punchIn).tz(timezone)`) before any arithmetic,
  and every subsequent operation (`diff` in minutes, `.hour()`, setting the
  time of day) reads or writes that local clock, so local minutes are the
  state the program actually computes with.  The zones used by the program
  (`Asia/Manila`, the `UTC` default) have a fixed offset and no DST, so the
  local-minute timeline is unbroken.  `moment.diff(_,'minutes')` is exact on
  whole-minute inputs.
* A local minute `t` lies on local day `t / 1440`; `t % 1440` is the time of
  day, so the local clock hour is `(t % 1440) / 60` (Int.emod is
  non-negative, matching the calendar for instants before the epoch too).
* A schedule's `start`/`end` "HH:MM" string is represented by its parsed
  `(hours, minutes)` pair, exactly the result of `split(':').map(Number)`;
  an absent field is `none`.  An absent punch is likewise `none`.
* The `throw` in `calculateTimeMetrics` (missing punch) and the `TypeError`
  raised by `getScheduledTime` on a missing schedule time (reading `.split`
  of `undefined`) are modelled as `Except.error`; both are synchronous in the
  source, and `Except` is the synchronous-failure monad here.
* `(m / 60).toFixed(2)` is modelled by exact decimal rounding of the rational
  `m / 60` to two places; since `100 * m / 60` has denominator 3, its value is
  never half-way between two hundredths, so the rounding of the IEEE double
  agrees with the rounding of the rational for all inputs of interest.
-/

set_option maxRecDepth 100000

namespace TimeCalculator

/-- Minutes per local day. -/
def minutesPerDay : Int := 1440

/-- Start-of-day (local midnight) of the local day containing minute `t`. -/
def startOfDay (t : Int) : Int := t - t % minutesPerDay

/-- The local clock hour of local minute `t` (what `moment.hour()` returns). -/
def localHour (t : Int) : Int := (t % minutesPerDay) / 60

/-- A work schedule: `start` and `endT` are the parsed `(hours, minutes)` of
the "HH:MM" strings (`endT` stands for the source field `end`, a reserved word
in Lean); `none` models an absent field.  The timezone is implicit: all
instants are already expressed on its local clock. -/
structure Schedule where
  start : Option (Nat × Nat)
  endT : Option (Nat × Nat)
deriving Repr, DecidableEq

/-- An attendance record as consumed by `calculateTimeMetrics`: the two punch
instants, `none` when absent. -/
structure Attendance where
  punchIn : Option Int
  punchOut : Option Int
deriving Repr, DecidableEq

/-- The errors `calculateTimeMetrics` can raise: the explicit
`throw new Error('Both punchIn and punchOut are required')`, and the
`TypeError` raised inside `getScheduledTime` when a schedule time string is
absent (`undefined.split`). -/
inductive CalcError where
  | missingPunch : CalcError
  | missingScheduleTime : CalcError
deriving Repr, DecidableEq

/-- The `error.message` string captured by the batch handler. -/
def CalcError.message : CalcError → String
  | .missingPunch => "Both punchIn and punchOut are required"
  | .missingScheduleTime => "Cannot read properties of undefined (reading 'split')"

/-- `getScheduledTime`: same local day as `dateMoment`, with the clock set to
`hours:minutes` (seconds and milliseconds zeroed; minute granularity already
has none).  Setting `.hour(h).minute(m)` on a moment lands on
`startOfDay + 60*h + m`, with moment's overflow bubbling matched by plain
arithmetic. -/
def getScheduledTime (dateMoment : Int) (timeString : Nat × Nat) : Int :=
  startOfDay dateMoment + 60 * (timeString.1 : Int) + (timeString.2 : Int)

/-- `calculateLate`: minutes of arrival after shift start, 0 when
`punchIn.isSameOrBefore(shiftStart)`. -/
def calculateLate (punchIn shiftStart : Int) : Int :=
  if punchIn ≤ shiftStart then 0 else punchIn - shiftStart

/-- `calculateUndertime`: minutes of departure before shift end, 0 when
`punchOut.isSameOrAfter(shiftEnd)`. -/
def calculateUndertime (punchOut shiftEnd : Int) : Int :=
  if shiftEnd ≤ punchOut then 0 else shiftEnd - punchOut

/-- `calculateRegularHours`: overlap of the punch interval with the shift
window, capped at `scheduledMinutes`; 0 when the overlap is empty or
inverted. -/
def calculateRegularHours (punchIn punchOut shiftStart shiftEnd scheduledMinutes : Int) : Int :=
  let effectiveStart := if shiftStart < punchIn then punchIn else shiftStart
  let effectiveEnd := if punchOut < shiftEnd then punchOut else shiftEnd
  if effectiveEnd ≤ effectiveStart then 0
  else min (effectiveEnd - effectiveStart) scheduledMinutes

/-- `calculateOvertime`: minutes of punch-out past shift end, 0 when
`punchOut.isSameOrBefore(shiftEnd)`.  `punchIn`, `totalWorkedMinutes` and
`scheduledMinutes` are unused in the source and kept for fidelity. -/
def calculateOvertime (punchIn punchOut shiftEnd totalWorkedMinutes scheduledMinutes : Int) : Int :=
  if punchOut ≤ shiftEnd then 0 else punchOut - shiftEnd

/-- Whether a local minute falls in the night-differential window: the
source's `hour >= 22 || hour < 6` test. -/
def isNightMinute (t : Int) : Bool :=
  22 ≤ localHour t || localHour t < 6

/-- `calculateNightDifferential`: the per-minute scan.  The loop runs once per
minute `punchIn + i` for `i < punchOut - punchIn` (never, when the interval is
inverted or empty) and counts the minutes whose local hour is in the night
window. -/
def calculateNightDifferential (punchIn punchOut : Int) : Nat :=
  (List.range (punchOut - punchIn).toNat).countP
    (fun (i : Nat) => isNightMinute (punchIn + (i : Int)))

/-- Two-decimal rendering of a count `c` of hundredths (helper for
`toFixed(2)`). -/
def fmtCenti (c : Int) : String :=
  let s := c.natAbs
  let intPart := s / 100
  let frac := s % 100
  (if c < 0 then "-" else "") ++ toString intPart ++ "." ++
    (if frac < 10 then "0" ++ toString frac else toString frac)

/-- `(m / 60).toFixed(2)`: the rational `m / 60` rounded to hundredths (no
tie is possible, see module comment), rendered with exactly two decimals. -/
def minutesToHoursStr (m : Int) : String :=
  if 0 ≤ m then fmtCenti ((10 * m + 3) / 6)
  else fmtCenti (-((10 * (-m) + 3) / 6))

/-- The record returned by `calculateTimeMetrics`.  The four `*Time`/`shift*`
echo fields hold the resolved instants (serialised with `toISOString()` in the
source; here the instants themselves, in local minutes). -/
structure TimeMetrics where
  totalWorkedHours : String
  totalWorkedMinutes : Int
  regularHours : String
  regularMinutes : Int
  overtimeHours : String
  overtimeMinutes : Int
  nightDiffHours : String
  nightDiffMinutes : Nat
  lateMinutes : Int
  undertimeMinutes : Int
  punchInTime : Int
  punchOutTime : Int
  shiftStart : Int
  shiftEnd : Int
deriving Repr, DecidableEq, Inhabited

/-- `calculateTimeMetrics`: the top-level calculation.  Checks the punches
first (the explicit `throw`), then resolving the shift times fails when
`schedule.start` or `schedule.end` is absent (`TypeError` inside
`getScheduledTime`, `start` first), then computes every metric. -/
def calculateTimeMetrics (attendance : Attendance) (schedule : Schedule) :
    Except CalcError TimeMetrics :=
  match attendance.punchIn, attendance.punchOut with
  | none, _ => .error .missingPunch
  | _, none => .error .missingPunch
  | some punchInTime, some punchOutTime =>
    match schedule.start with
    | none => .error .missingScheduleTime
    | some startTime =>
      match schedule.endT with
      | none => .error .missingScheduleTime
      | some endTime =>
        let shiftStart := getScheduledTime punchInTime startTime
        let shiftEnd := getScheduledTime punchInTime endTime
        let lateMinutes := calculateLate punchInTime shiftStart
        let undertimeMinutes := calculateUndertime punchOutTime shiftEnd
        let totalWorkedMinutes := punchOutTime - punchInTime
        let scheduledMinutes := shiftEnd - shiftStart
        let regularMinutes :=
          calculateRegularHours punchInTime punchOutTime shiftStart shiftEnd scheduledMinutes
        let overtimeMinutes :=
          calculateOvertime punchInTime punchOutTime shiftEnd totalWorkedMinutes scheduledMinutes
        let nightDiffMinutes := calculateNightDifferential punchInTime punchOutTime
        .ok {
          totalWorkedHours := minutesToHoursStr totalWorkedMinutes
          totalWorkedMinutes := totalWorkedMinutes
          regularHours := minutesToHoursStr regularMinutes
          regularMinutes := regularMinutes
          overtimeHours := minutesToHoursStr overtimeMinutes
          overtimeMinutes := overtimeMinutes
          nightDiffHours := minutesToHoursStr (nightDiffMinutes : Int)
          nightDiffMinutes := nightDiffMinutes
          lateMinutes := lateMinutes
          undertimeMinutes := undertimeMinutes
          punchInTime := punchInTime
          punchOutTime := punchOutTime
          shiftStart := shiftStart
          shiftEnd := shiftEnd }

/-- An input record for the batch entry point: the two punch fields the
calculator reads, plus the record's remaining fields (other than `metrics`
and `calculationError`, which the batch output sets last in the spread),
carried opaquely as key-value pairs. -/
structure InputRecord where
  punchIn : Option Int
  punchOut : Option Int
  extra : List (String × String)
deriving Repr, DecidableEq

/-- One entry of the batch output: `{ ...record, metrics, calculationError }`. -/
structure BatchEntry where
  punchIn : Option Int
  punchOut : Option Int
  extra : List (String × String)
  metrics : Option TimeMetrics
  calculationError : Option String
deriving Repr, DecidableEq

/-- The body of the `map` in `batchCalculateTimeMetrics`: try the
calculation, spread the original record, and attach either the metrics or
the caught error's message. -/
def processRecord (userSchedule : Schedule) (record : InputRecord) : BatchEntry :=
  match calculateTimeMetrics ⟨record.punchIn, record.punchOut⟩ userSchedule with
  | .ok metrics =>
    { punchIn := record.punchIn, punchOut := record.punchOut, extra := record.extra
      metrics := some metrics, calculationError := none }
  | .error e =>
    { punchIn := record.punchIn, punchOut := record.punchOut, extra := record.extra
      metrics := none, calculationError := some e.message }

/-- `batchCalculateTimeMetrics`: `attendanceRecords.map(record => ...)`. -/
def batchCalculateTimeMetrics (attendanceRecords : List InputRecord)
    (userSchedule : Schedule) : List BatchEntry :=
  attendanceRecords.map (processRecord userSchedule)

/-- `true` exactly when the calculation raised (synchronously, in the
source). -/
def isError (r : Except CalcError TimeMetrics) : Bool :=
  match r with
  | .error _ => true
  | .ok _ => false

/-- The metrics of a successful calculation (defaulted on error; only used
together with success facts). -/
def getOk (r : Except CalcError TimeMetrics) : TimeMetrics :=
  match r with
  | .ok m => m
  | .error _ => default

/-- The day-shift schedule of the spec's scenarios: start "09:00", end
"18:00" (timezone Asia/Manila, fixed offset, implicit in the local-minute
encoding). -/
def dayShift : Schedule := { start := some (9, 0), endT := some (18, 0) }

/-- A degenerate schedule whose end-of-shift clock time precedes its start
("18:00" to "09:00", e.g. a night shift written naively). -/
def invertedShift : Schedule := { start := some (18, 0), endT := some (9, 0) }

/-- C1 — counterexample.  At the spec's first scenario (punch-in 09:15,
punch-out 19:30 local, shift 09:00-18:00) the code does NOT return
`totalWorkedMinutes = 625` together with the other claimed values: the
punch interval is 10 h 15 min = 615 minutes. -/
theorem c1_scenario_counterexample :
    ¬ (((calculateTimeMetrics ⟨some 555, some 1170⟩ dayShift).toOption.map
        (fun m => (m.totalWorkedMinutes, m.regularMinutes, m.overtimeMinutes,
          m.nightDiffMinutes, m.lateMinutes, m.undertimeMinutes))) =
          some (625, 525, 90, 0, 15, 0) ∧
      ((calculateTimeMetrics ⟨some 555, some 1170⟩ dayShift).toOption.map
        (fun m => (m.regularHours, m.overtimeHours))) = some ("8.75", "1.50")) := by
  decide

/-- C1 — amended.  Same scenario with the one value the code forces
changed: `totalWorkedMinutes = 615` (= 525 regular + 90 overtime); all
remaining claimed values are as stated: regular 525 ("8.75"), overtime 90
("1.50"), night differential 0, late 15, undertime 0. -/
theorem c1_scenario :
    ((calculateTimeMetrics ⟨some 555, some 1170⟩ dayShift).toOption.map
      (fun m => (m.totalWorkedMinutes, m.regularMinutes, m.overtimeMinutes,
        m.nightDiffMinutes, m.lateMinutes, m.undertimeMinutes))) =
        some (615, 525, 90, 0, 15, 0) ∧
    ((calculateTimeMetrics ⟨some 555, some 1170⟩ dayShift).toOption.map
      (fun m => (m.regularHours, m.overtimeHours))) = some ("8.75", "1.50") := by
  exact ⟨by decide, by decide⟩

/-- C2 — counterexample.  At the overnight scenario (punch-in day 1 21:00 =
minute 1260, punch-out day 2 07:00 = minute 1860, shift 09:00-18:00) the
code does NOT return `overtimeMinutes = 600`: `calculateOvertime` is
`punchOut - shiftEnd`, which spans 18:00 day 1 to 07:00 day 2 = 780
minutes, including the 18:00-21:00 stretch that was never worked. -/
theorem c2_overnight_counterexample :
    ((calculateTimeMetrics ⟨some 1260, some 1860⟩ dayShift).toOption.map
      (fun m => (m.nightDiffMinutes, m.overtimeMinutes, m.regularMinutes,
        m.lateMinutes))) ≠
    some (480, 600, 0, 720) := by decide

/-- C2 — amended.  Same scenario with `overtimeMinutes = 780` (the code's
`punchOut - shiftEnd`); the other claimed values hold as stated: night
differential 480 (the minutes whose local clock lies in 22:00-24:00 plus
00:00-06:00), regular 0, late 720. -/
theorem c2_overnight :
    ((calculateTimeMetrics ⟨some 1260, some 1860⟩ dayShift).toOption.map
      (fun m => (m.nightDiffMinutes, m.overtimeMinutes, m.regularMinutes,
        m.lateMinutes))) =
    some (480, 780, 0, 720) := by decide

/-- Arithmetic core of C3: once the punch-in is inside the shift window and
the interval is not inverted, overtime plus regular never exceeds the worked
minutes. -/
lemma overtime_add_regular_le (punchIn punchOut shiftStart shiftEnd : Int)
    (h1 : shiftStart ≤ punchIn) (h2 : punchIn ≤ shiftEnd) (h3 : punchIn ≤ punchOut) :
    calculateOvertime punchIn punchOut shiftEnd (punchOut - punchIn)
        (shiftEnd - shiftStart) +
      calculateRegularHours punchIn punchOut shiftStart shiftEnd
        (shiftEnd - shiftStart) ≤
    punchOut - punchIn := by
  simp only [calculateOvertime, calculateRegularHours]
  split_ifs <;> omega

/-- C3 — counterexample.  Punch-in 20:00 (minute 1200, at or after the 09:00
shift start), punch-out 21:00 (minute 1260): the interval is not inverted,
yet overtime (180) plus regular (0) exceeds the 60 worked minutes, because
`calculateOvertime` counts the whole 18:00-21:00 stretch although work only
started at 20:00. -/
theorem c3_no_double_counting_counterexample :
    ((calculateTimeMetrics ⟨some 1200, some 1260⟩ dayShift).toOption.map
      (fun m => (decide (m.shiftStart ≤ m.punchInTime),
        decide (m.overtimeMinutes + m.regularMinutes ≤ m.totalWorkedMinutes)))) =
    some (true, false) := by decide

/-- C3 — amended.  `overtimeMinutes + regularMinutes ≤ totalWorkedMinutes`
holds whenever punch-in is at or after the resolved shift start AND at or
before the resolved shift end AND the punch interval is not inverted (the
code violates the claim when punch-in is past shift end, and on inverted
intervals). -/
theorem c3_no_double_counting (a : Attendance) (s : Schedule) (m : TimeMetrics)
    (hok : calculateTimeMetrics a s = .ok m)
    (hstart : m.shiftStart ≤ m.punchInTime)
    (hend : m.punchInTime ≤ m.shiftEnd)
    (hni : m.punchInTime ≤ m.punchOutTime) :
    m.overtimeMinutes + m.regularMinutes ≤ m.totalWorkedMinutes := by
  rcases a with ⟨pin, pout⟩
  rcases pin with _ | pin
  · simp [calculateTimeMetrics] at hok
  rcases pout with _ | pout
  · simp [calculateTimeMetrics] at hok
  rcases s with ⟨st, en⟩
  rcases st with _ | st
  · simp [calculateTimeMetrics] at hok
  rcases en with _ | en
  · simp [calculateTimeMetrics] at hok
  simp only [calculateTimeMetrics] at hok
  injection hok with hok
  subst hok
  simp only at hstart hend hni ⊢
  have := overtime_add_regular_le pin pout (getScheduledTime pin st)
    (getScheduledTime pin en) hstart hend hni
  omega

/-- C3 — witness at the first scenario's input (punch-in 09:15, inside the
09:00-18:00 window, punch-out 19:30). -/
theorem c3_no_double_counting_witness :
    (getOk (calculateTimeMetrics ⟨some 555, some 1170⟩ dayShift)).overtimeMinutes +
      (getOk (calculateTimeMetrics ⟨some 555, some 1170⟩ dayShift)).regularMinutes ≤
    (getOk (calculateTimeMetrics ⟨some 555, some 1170⟩ dayShift)).totalWorkedMinutes :=
  c3_no_double_counting ⟨some 555, some 1170⟩ dayShift
    (getOk (calculateTimeMetrics ⟨some 555, some 1170⟩ dayShift))
    (by rfl) (by decide) (by decide) (by decide)

/-- Arithmetic core of C4/C5: bounds of `calculateRegularHours` when the
shift window is not inverted. -/
lemma regular_bounds (punchIn punchOut shiftStart shiftEnd : Int)
    (h : shiftStart ≤ shiftEnd) :
    0 ≤ calculateRegularHours punchIn punchOut shiftStart shiftEnd
        (shiftEnd - shiftStart) ∧
      calculateRegularHours punchIn punchOut shiftStart shiftEnd
        (shiftEnd - shiftStart) ≤ shiftEnd - shiftStart := by
  simp only [calculateRegularHours]
  split_ifs <;> omega

/-- C4 — counterexample.  With the schedule start "18:00" / end "09:00" the
resolved window is inverted (scheduledMinutes = -540): on the non-inverted
punch pair 10:00-11:00 the code returns regular = 0, which is NOT ≤
scheduledMinutes. -/
theorem c4_regular_bounds_counterexample :
    ((calculateTimeMetrics ⟨some 600, some 660⟩ invertedShift).toOption.map
      (fun m => (decide (m.punchInTime < m.punchOutTime),
        decide (0 ≤ m.regularMinutes ∧
          m.regularMinutes ≤ m.shiftEnd - m.shiftStart)))) =
    some (true, false) := by decide

/-- C4 — amended.  For every non-inverted punch pair whose schedule resolves
to a non-inverted shift window (shiftStart ≤ shiftEnd, i.e.
scheduledMinutes ≥ 0), `regularMinutes` lies in `[0, scheduledMinutes]`. -/
theorem c4_regular_bounds (a : Attendance) (s : Schedule) (m : TimeMetrics)
    (hok : calculateTimeMetrics a s = .ok m)
    (hni : m.punchInTime < m.punchOutTime)
    (hsched : m.shiftStart ≤ m.shiftEnd) :
    0 ≤ m.regularMinutes ∧ m.regularMinutes ≤ m.shiftEnd - m.shiftStart := by
  rcases a with ⟨pin, pout⟩
  rcases pin with _ | pin
  · simp [calculateTimeMetrics] at hok
  rcases pout with _ | pout
  · simp [calculateTimeMetrics] at hok
  rcases s with ⟨st, en⟩
  rcases st with _ | st
  · simp [calculateTimeMetrics] at hok
  rcases en with _ | en
  · simp [calculateTimeMetrics] at hok
  simp only [calculateTimeMetrics] at hok
  injection hok with hok
  subst hok
  simp only at hsched ⊢
  exact regular_bounds pin pout (getScheduledTime pin st) (getScheduledTime pin en) hsched

/-- C4 — witness: a punch pair exactly covering the 09:00-18:00 shift. -/
theorem c4_regular_bounds_witness :
    0 ≤ (getOk (calculateTimeMetrics ⟨some 540, some 1080⟩ dayShift)).regularMinutes ∧
      (getOk (calculateTimeMetrics ⟨some 540, some 1080⟩ dayShift)).regularMinutes ≤
        (getOk (calculateTimeMetrics ⟨some 540, some 1080⟩ dayShift)).shiftEnd -
          (getOk (calculateTimeMetrics ⟨some 540, some 1080⟩ dayShift)).shiftStart :=
  c4_regular_bounds ⟨some 540, some 1080⟩ dayShift
    (getOk (calculateTimeMetrics ⟨some 540, some 1080⟩ dayShift))
    (by rfl) (by decide) (by decide)

/-- C5 — counterexample.  Schedule start "18:00" / end "09:00" (resolved
window inverted), punch-in 08:00 ≤ shiftStart (18:00) and punch-out 10:00 ≥
shiftEnd (09:00): the code returns regular = 0, not scheduledMinutes
(-540). -/
theorem c5_full_coverage_counterexample :
    ((calculateTimeMetrics ⟨some 480, some 600⟩ invertedShift).toOption.map
      (fun m => (decide (m.punchInTime ≤ m.shiftStart ∧
          m.shiftEnd ≤ m.punchOutTime),
        decide (m.regularMinutes = m.shiftEnd - m.shiftStart)))) =
    some (true, false) := by decide

/-- C5 — amended.  When punch-in ≤ shiftStart, punch-out ≥ shiftEnd AND the
resolved window is not inverted (shiftStart ≤ shiftEnd), the code returns
regular = scheduledMinutes, late = 0 and undertime = 0. -/
theorem c5_full_coverage (a : Attendance) (s : Schedule) (m : TimeMetrics)
    (hok : calculateTimeMetrics a s = .ok m)
    (hin : m.punchInTime ≤ m.shiftStart)
    (hout : m.shiftEnd ≤ m.punchOutTime)
    (hsched : m.shiftStart ≤ m.shiftEnd) :
    m.regularMinutes = m.shiftEnd - m.shiftStart ∧
      m.lateMinutes = 0 ∧ m.undertimeMinutes = 0 := by
  rcases a with ⟨pin, pout⟩
  rcases pin with _ | pin
  · simp [calculateTimeMetrics] at hok
  rcases pout with _ | pout
  · simp [calculateTimeMetrics] at hok
  rcases s with ⟨st, en⟩
  rcases st with _ | st
  · simp [calculateTimeMetrics] at hok
  rcases en with _ | en
  · simp [calculateTimeMetrics] at hok
  simp only [calculateTimeMetrics] at hok
  injection hok with hok
  subst hok
  simp only at hin hout hsched ⊢
  simp only [calculateRegularHours, calculateLate, calculateUndertime]
  split_ifs <;> omega

/-- C5 — witness: punching 08:20-18:20 around the 09:00-18:00 shift. -/
theorem c5_full_coverage_witness :
    (getOk (calculateTimeMetrics ⟨some 500, some 1100⟩ dayShift)).regularMinutes =
        (getOk (calculateTimeMetrics ⟨some 500, some 1100⟩ dayShift)).shiftEnd -
          (getOk (calculateTimeMetrics ⟨some 500, some 1100⟩ dayShift)).shiftStart ∧
      (getOk (calculateTimeMetrics ⟨some 500, some 1100⟩ dayShift)).lateMinutes = 0 ∧
      (getOk (calculateTimeMetrics ⟨some 500, some 1100⟩ dayShift)).undertimeMinutes = 0 :=
  c5_full_coverage ⟨some 500, some 1100⟩ dayShift
    (getOk (calculateTimeMetrics ⟨some 500, some 1100⟩ dayShift))
    (by rfl) (by decide) (by decide) (by decide)

/-- C6 — `calculateTimeMetrics` fails (and in the source the failure is a
synchronous `throw`, modelled by `Except.error`) exactly when a punch or a
schedule time is absent; on every other input it returns a metrics record. -/
theorem c6_invalid_input (a : Attendance) (s : Schedule) :
    isError (calculateTimeMetrics a s) = true ↔
      (a.punchIn = none ∨ a.punchOut = none ∨ s.start = none ∨ s.endT = none) := by
  rcases a with ⟨_ | pin, _ | pout⟩ <;> rcases s with ⟨_ | st, _ | en⟩ <;>
    simp [calculateTimeMetrics, isError]

/-- C6 — witness: present punches and schedule succeed; dropping the
punch-out fails. -/
theorem c6_invalid_input_witness :
    (isError (calculateTimeMetrics ⟨some 555, some 1170⟩ dayShift) = true ↔
      ((some (555 : Int) = none ∨ some (1170 : Int) = none ∨
        dayShift.start = none ∨ dayShift.endT = none))) ∧
    (isError (calculateTimeMetrics ⟨some 555, none⟩ dayShift) = true ↔
      ((some (555 : Int) = none ∨ (none : Option Int) = none ∨
        dayShift.start = none ∨ dayShift.endT = none))) :=
  ⟨c6_invalid_input ⟨some 555, some 1170⟩ dayShift,
    c6_invalid_input ⟨some 555, none⟩ dayShift⟩

/-- `processRecord` populates exactly one of `metrics` and
`calculationError`. -/
lemma processRecord_exclusive (sch : Schedule) (r : InputRecord) :
    ((processRecord sch r).metrics ≠ none ∧
      (processRecord sch r).calculationError = none) ∨
    ((processRecord sch r).metrics = none ∧
      (processRecord sch r).calculationError ≠ none) := by
  unfold processRecord
  split
  · exact Or.inl ⟨by simp, rfl⟩
  · exact Or.inr ⟨rfl, by simp⟩

/-- C7 — shape of the batch output: same length as the input, the `i`-th
entry is obtained from the `i`-th record alone (so order is preserved and a
failing record cannot disturb any other entry), and every entry carries
exactly one of `metrics` and `calculationError`. -/
theorem c7_batch_shape (records : List InputRecord) (sch : Schedule) (i : Nat) :
    (batchCalculateTimeMetrics records sch).length = records.length ∧
    (batchCalculateTimeMetrics records sch)[i]? =
      (records[i]?).map (processRecord sch) ∧
    ∀ e ∈ batchCalculateTimeMetrics records sch,
      (e.metrics ≠ none ∧ e.calculationError = none) ∨
      (e.metrics = none ∧ e.calculationError ≠ none) := by
  refine ⟨List.length_map _ _, List.getElem?_map (processRecord sch) records i, ?_⟩
  intro e he
  rcases List.mem_map.mp he with ⟨r, _, rfl⟩
  exact processRecord_exclusive sch r

/-- C7 — witness: a two-record batch whose second record lacks its punch-out
keeps its length and order, the first entry carries metrics, and the second
carries only the error. -/
theorem c7_batch_shape_witness :
    (processRecord dayShift ⟨some 540, none, []⟩).metrics = none ∧
      (processRecord dayShift ⟨some 540, none, []⟩).calculationError ≠ none ∧
      (batchCalculateTimeMetrics [⟨some 555, some 1170, []⟩, ⟨some 540, none, []⟩]
          dayShift).length = 2 := by
  have h := c7_batch_shape [⟨some 555, some 1170, []⟩, ⟨some 540, none, []⟩] dayShift 1
  rcases h.2.2 (processRecord dayShift ⟨some 540, none, []⟩)
      (by simp [batchCalculateTimeMetrics]) with he | he
  · exact absurd (by rfl) he.1
  · exact ⟨he.1, he.2, h.1⟩

/-- C9 — on an inverted or zero-length interval with both punches and both
schedule times present, the calculation still succeeds, the per-minute night
scan never runs (0 minutes), the shift overlap is empty (regular 0), and the
total is the non-positive raw difference. -/
theorem c9_inverted_interval (pin pout : Int) (st en : Nat × Nat)
    (h : pout ≤ pin) :
    isError (calculateTimeMetrics ⟨some pin, some pout⟩ ⟨some st, some en⟩) = false ∧
    (getOk (calculateTimeMetrics ⟨some pin, some pout⟩ ⟨some st, some en⟩)).nightDiffMinutes = 0 ∧
    (getOk (calculateTimeMetrics ⟨some pin, some pout⟩ ⟨some st, some en⟩)).regularMinutes = 0 ∧
    (getOk (calculateTimeMetrics ⟨some pin, some pout⟩ ⟨some st, some en⟩)).totalWorkedMinutes ≤ 0 := by
  refine ⟨rfl, ?_, ?_, ?_⟩
  · show calculateNightDifferential pin pout = 0
    simp [calculateNightDifferential, Int.toNat_of_nonpos (by omega : pout - pin ≤ 0)]
  · show calculateRegularHours pin pout (getScheduledTime pin st) (getScheduledTime pin en)
      (getScheduledTime pin en - getScheduledTime pin st) = 0
    simp only [calculateRegularHours]
    split_ifs <;> omega
  · show pout - pin ≤ 0
    omega

/-- C9 — witness: punch-out one hour before punch-in on the day shift. -/
theorem c9_inverted_interval_witness :
    isError (calculateTimeMetrics ⟨some 600, some 540⟩ ⟨some (9, 0), some (18, 0)⟩) = false ∧
    (getOk (calculateTimeMetrics ⟨some 600, some 540⟩ ⟨some (9, 0), some (18, 0)⟩)).nightDiffMinutes = 0 ∧
    (getOk (calculateTimeMetrics ⟨some 600, some 540⟩ ⟨some (9, 0), some (18, 0)⟩)).regularMinutes = 0 ∧
    (getOk (calculateTimeMetrics ⟨some 600, some 540⟩ ⟨some (9, 0), some (18, 0)⟩)).totalWorkedMinutes ≤ 0 :=
  c9_inverted_interval 600 540 (9, 0) (18, 0) (by decide)

/-- `processRecord` copies the record's own fields unchanged. -/
lemma processRecord_frame (sch : Schedule) (r : InputRecord) :
    (processRecord sch r).punchIn = r.punchIn ∧
      (processRecord sch r).punchOut = r.punchOut ∧
      (processRecord sch r).extra = r.extra := by
  unfold processRecord
  split <;> exact ⟨rfl, rfl, rfl⟩

/-- C10 — frame property of the batch: every output entry carries the
corresponding input record's own fields (the punches and all other fields,
carried in `extra`) unchanged; only `metrics` and `calculationError` are
added. -/
theorem c10_batch_frame (records : List InputRecord) (sch : Schedule) (i : Nat) :
    ((batchCalculateTimeMetrics records sch)[i]?.map
      (fun e => (e.punchIn, e.punchOut, e.extra))) =
    (records[i]?.map (fun r => (r.punchIn, r.punchOut, r.extra))) := by
  rw [batchCalculateTimeMetrics, List.getElem?_map]
  cases h : records[i]? with
  | none => rfl
  | some r =>
    rcases processRecord_frame sch r with ⟨h1, h2, h3⟩
    simp [h1, h2, h3]

/-- Counting a predicate along `a, a+1, …, a+n-1` is the cardinality of the
satisfying subset of the integer interval `[a, a+n)`. -/
lemma countP_range_eq_card_Ico (p : Int → Prop) [DecidablePred p] (a : Int) :
    ∀ n : Nat, (List.range n).countP (fun (i : Nat) => decide (p (a + (i : Int)))) =
      ((Finset.Ico a (a + (n : Int))).filter p).card := by
  intro n
  induction n with
  | zero => simp
  | succ k ih =>
    rw [List.range_succ, List.countP_append]
    have hcast : (a + ((k + 1 : Nat) : Int)) = (a + (k : Int)) + 1 := by
      push_cast
      ring
    have hIco : Finset.Ico a (a + (k : Int) + 1) =
        insert (a + (k : Int)) (Finset.Ico a (a + (k : Int))) := by
      ext x
      simp only [Finset.mem_Ico, Finset.mem_insert]
      omega
    rw [hcast, hIco, Finset.filter_insert]
    by_cases hp : p (a + (k : Int))
    · rw [if_pos hp, Finset.card_insert_of_not_mem (by simp)]
      simp [ih, hp]
    · rw [if_neg hp]
      simp [ih, hp]

/-- The per-minute scan of `calculateNightDifferential` computes exactly the
number of whole minutes of `[punchIn, punchOut)` whose local clock hour is ≥
22 or < 6. -/
lemma calculateNightDifferential_eq_card (punchIn punchOut : Int) :
    calculateNightDifferential punchIn punchOut =
      ((Finset.Ico punchIn punchOut).filter
        (fun t => 22 ≤ localHour t ∨ localHour t < 6)).card := by
  unfold calculateNightDifferential
  have hfun : (fun (i : Nat) => isNightMinute (punchIn + (i : Int))) =
      (fun (i : Nat) =>
        decide (22 ≤ localHour (punchIn + (i : Int)) ∨ localHour (punchIn + (i : Int)) < 6)) := by
    funext i
    by_cases h1 : 22 ≤ localHour (punchIn + i) <;>
      by_cases h2 : localHour (punchIn + i) < 6 <;>
      simp [isNightMinute, h1, h2]
  rw [hfun]
  rcases le_or_lt punchOut punchIn with h | h
  · rw [Int.toNat_of_nonpos (by omega), Finset.Ico_eq_empty (by omega : ¬punchIn < punchOut)]
    simp
  · have hn : punchOut = punchIn + (((punchOut - punchIn).toNat : Nat) : Int) := by
      rw [Int.toNat_of_nonneg (by omega)]
      ring
    rw [countP_range_eq_card_Ico (fun t => 22 ≤ localHour t ∨ localHour t < 6) punchIn, ← hn]

/-- C8 — night differential.  (a) Extending the punch interval on either
side (in particular by stretches lying inside the 22:00-06:00 window) never
decreases `nightDiffMinutes`; (b) the scan equals the count of whole minutes
of `[punchIn, punchOut)` whose local clock hour is at least 22 or below 6. -/
theorem c8_night_diff (punchIn punchOut punchIn2 punchOut2 : Int)
    (hIn : punchIn2 ≤ punchIn) (hOut : punchOut ≤ punchOut2)
    (hAdded : ∀ t : Int,
      (punchIn2 ≤ t ∧ t < punchIn) ∨ (punchOut ≤ t ∧ t < punchOut2) →
        isNightMinute t = true) :
    calculateNightDifferential punchIn punchOut ≤
        calculateNightDifferential punchIn2 punchOut2 ∧
      calculateNightDifferential punchIn punchOut =
        ((Finset.Ico punchIn punchOut).filter
          (fun t => 22 ≤ localHour t ∨ localHour t < 6)).card := by
  refine ⟨?_, calculateNightDifferential_eq_card punchIn punchOut⟩
  rw [calculateNightDifferential_eq_card, calculateNightDifferential_eq_card]
  exact Finset.card_le_card
    (Finset.filter_subset_filter _ (Finset.Ico_subset_Ico hIn hOut))

/-- C8 — witness: the 22:00-23:00 scan extended by the 23:00-24:00 hour,
which lies inside the night window. -/
theorem c8_night_diff_witness :
    calculateNightDifferential 1320 1380 ≤ calculateNightDifferential 1320 1440 ∧
      calculateNightDifferential 1320 1380 =
        ((Finset.Ico (1320 : Int) 1380).filter
          (fun t => 22 ≤ localHour t ∨ localHour t < 6)).card :=
  c8_night_diff 1320 1380 1320 1440 (by decide) (by decide) (by
    intro t ht
    rcases ht with ⟨h1, h2⟩ | ⟨h1, h2⟩
    · exact absurd h2 (by omega)
    · simp only [isNightMinute, localHour, minutesPerDay, Bool.or_eq_true,
        decide_eq_true_eq]
      omega)

end TimeCalculator
